import Mathlib

/-!
Shallow embedding of the SolarSystemAider animation core (src/unnamed/part_000,
src/script.js).  Numeric quantities are modelled over an arbitrary linear
ordered field `α`; the transcendental functions `Math.cos`, `Math.sin`,
`Math.sqrt` and the constant `Math.PI` are abstracted into a `TrigOps` record,
so every definition stays computable and can be instantiated either with the
real functions (`Real.cos`, ...) for statements about the actual program, or
with computable stand-ins over `ℚ` for evaluation.  Calls to `Math.random()`
are modelled by explicit streams of draw values (each draw lies in `[0,1)` in
the actual program).
-/

namespace SolarSim

variable {α : Type*} [LinearOrderedField α]

/-- Abstraction of the host math library: cosine, sine, square root and π. -/
structure TrigOps (α : Type*) where
  cosf : α → α
  sinf : α → α
  sqrtf : α → α
  piA : α

/-- A THREE.Vector3 value. -/
@[ext]
structure Vec3 (α : Type*) where
  x : α
  y : α
  z : α
deriving DecidableEq

/-- A THREE.Quaternion value (components x, y, z, w; identity is (0,0,0,1)). -/
structure Quat (α : Type*) where
  x : α
  y : α
  z : α
  w : α
deriving DecidableEq

/-- THREE.Vector3.applyQuaternion: v' = v + w·t + u × t with t = 2 (u × v). -/
def applyQuat (q : Quat α) (v : Vec3 α) : Vec3 α :=
  let tx : α := 2 * (q.y * v.z - q.z * v.y)
  let ty : α := 2 * (q.z * v.x - q.x * v.z)
  let tz : α := 2 * (q.x * v.y - q.y * v.x)
  ⟨v.x + q.w * tx + (q.y * tz - q.z * ty),
   v.y + q.w * ty + (q.z * tx - q.x * tz),
   v.z + q.w * tz + (q.x * ty - q.y * tx)⟩

/-- Squared Euclidean length of a Vector3. -/
def vlengthSq (v : Vec3 α) : α := v.x * v.x + v.y * v.y + v.z * v.z

/-- THREE.Vector3.normalize: divide by length, or by 1 when the length is 0. -/
def vnormalize (ops : TrigOps α) (v : Vec3 α) : Vec3 α :=
  let n := ops.sqrtf (vlengthSq v)
  let d := if n = 0 then 1 else n
  ⟨v.x / d, v.y / d, v.z / d⟩

/-- List map that also passes the element index (used where the JS code pairs
a sequential `Math.random()` draw with each element). -/
def mapWithIdx (f : Nat → β → γ) : List β → List γ
  | [] => []
  | b :: bs => f 0 b :: mapWithIdx (fun i b' => f (i + 1) b') bs

@[simp] theorem mapWithIdx_nil (f : Nat → β → γ) : mapWithIdx f [] = [] := rfl

@[simp] theorem mapWithIdx_cons (f : Nat → β → γ) (b : β) (bs : List β) :
    mapWithIdx f (b :: bs) = f 0 b :: mapWithIdx (fun i b' => f (i + 1) b') bs := rfl

/-! ### Solar flares (createSolarFlares / animateSolarFlares) -/

/-- One solar flare: the sampled Bezier curve points plus the userData fields
(originalScale, animationOffset, lifespan, maxLifespan) and the material state
the animation loop touches (scale, opacity). -/
structure Flare (α : Type*) where
  curvePoints : List (Vec3 α)
  originalScale : α
  scale : α
  animationOffset : α
  lifespan : α
  maxLifespan : α
  opacity : α
deriving DecidableEq

/-- One component of THREE.QuadraticBezierCurve3.getPoint. -/
def quadBezier (p0 p1 p2 t : α) : α :=
  (1 - t) * (1 - t) * p0 + 2 * (1 - t) * t * p1 + t * t * p2

/-- THREE.QuadraticBezierCurve3.getPoint, componentwise. -/
def curveGetPoint (c0 c1 c2 : Vec3 α) (t : α) : Vec3 α :=
  ⟨quadBezier c0.x c1.x c2.x t, quadBezier c0.y c1.y c2.y t, quadBezier c0.z c1.z c2.z t⟩

/-- One flare of a createSolarFlares batch; `rng` is the stream of
`Math.random()` draws, eight per flare, in source order: three for the first
control point, three for the second, one for animationOffset, one for
maxLifespan. -/
def mkFlare (ops : TrigOps α) (rng : Nat → α) (i : Nat) : Flare α :=
  let p1 : Vec3 α := ⟨(rng (8 * i) - 1 / 2) * 15, (rng (8 * i + 1) - 1 / 2) * 15,
    (rng (8 * i + 2) - 1 / 2) * 15⟩
  let p2 : Vec3 α := ⟨(rng (8 * i + 3) - 1 / 2) * 10, (rng (8 * i + 4) - 1 / 2) * 10,
    (rng (8 * i + 5) - 1 / 2) * 10⟩
  { curvePoints := (List.range 21).map (fun j : Nat => curveGetPoint ⟨0, 0, 0⟩ p1 p2 ((j : α) / 20)),
    originalScale := 1,
    scale := 1,
    animationOffset := rng (8 * i + 6) * ops.piA * 2,
    lifespan := 0,
    maxLifespan := rng (8 * i + 7) * 5 + 5,
    opacity := 7 / 10 }

/-- createSolarFlares: a batch of flareCount = 3 fresh flares. -/
def createSolarFlares (ops : TrigOps α) (rng : Nat → α) : List (Flare α) :=
  (List.range 3).map (mkFlare ops rng)

/-- Per-flare body of the animateSolarFlares forEach: pulse the scale from the
wall clock, advance the lifespan by delta, recompute the opacity fade. -/
def stepFlare (ops : TrigOps α) (time delta : α) (f : Flare α) : Flare α :=
  let lifespan := f.lifespan + delta
  { f with
    scale := f.originalScale * (ops.sinf (time + f.animationOffset) * (2 / 10) + 1),
    lifespan := lifespan,
    opacity := 7 / 10 * (1 - lifespan / f.maxLifespan) }

/-- The forEach over solarFlares.children with in-place removal, exactly as the
JS runtime executes it: the iteration index `k` advances by one per visit even
when the visited flare is removed (THREE.Group.remove splices the children
array), so the element that slides into position `k` is skipped.  The loop
stops once `k` reaches the current (possibly shrunk) length.  `fuel` only
bounds the recursion; since `k` grows by one per step and the length never
grows, `length + 1` steps always suffice, so `flareLoop` below never exhausts
it. -/
def flareLoopFuel (ops : TrigOps α) (time delta : α) :
    Nat → List (Flare α) → Nat → List (Flare α)
  | 0, l, _ => l
  | fuel + 1, l, k =>
    if h : k < l.length then
      let f := stepFlare ops time delta (l.get ⟨k, h⟩)
      if f.maxLifespan ≤ f.lifespan then
        flareLoopFuel ops time delta fuel (l.eraseIdx k) (k + 1)
      else
        flareLoopFuel ops time delta fuel (l.set k f) (k + 1)
    else l

/-- The forEach pass of animateSolarFlares over the current children list. -/
def flareLoop (ops : TrigOps α) (time delta : α) (l : List (Flare α)) : List (Flare α) :=
  flareLoopFuel ops time delta (l.length + 1) l 0

/-- animateSolarFlares: age/fade/retire pass, then a single spawn trial
(`Math.random() < (1 / solarFlareInterval) * delta`) that on success appends
`createSolarFlares().children[0]`, the first flare of a fresh batch. -/
def animateSolarFlares (ops : TrigOps α) (time delta interval rand : α) (rng : Nat → α)
    (flares : List (Flare α)) : List (Flare α) :=
  let processed := flareLoop ops time delta flares
  if rand < 1 / interval * delta then
    processed ++ (createSolarFlares ops rng).take 1
  else
    processed

/-! ### Planets and moons (createPlanet / createMoon) -/

/-- Declarative spec of one moon ({ size, orbitRadius } entries). -/
structure MoonSpec (α : Type*) where
  size : α
  orbitRadius : α
deriving DecidableEq

/-- Runtime state of one moon: the fields of the moonObjects entries plus the
transform state the animation loop mutates (group position, mesh spin). -/
structure MoonState (α : Type*) where
  orbitRadius : α
  angle : α
  rotationSpeed : α
  pos : Vec3 α
  meshRotY : α
deriving DecidableEq

/-- Runtime state of one planet: the record returned by createPlanet plus the
transform state the animation loop mutates.  `groupQuat` is the planet group's
quaternion (never written by any code path), `meshRotY` the mesh spin,
`sunDirection` the day/night shader uniform (meaningful when isEarth). -/
structure PlanetState (α : Type*) where
  name : String
  size : α
  orbitRadius : α
  angle : α
  rotationSpeed : α
  pos : Vec3 α
  groupQuat : Quat α
  meshRotY : α
  cloudRotY : α
  scale : α
  hasRings : Bool
  hasClouds : Bool
  isEarth : Bool
  sunDirection : Vec3 α
  moons : List (MoonState α)
deriving DecidableEq

/-- createMoon + the moonObjects push: group at the origin, random initial
angle (`Math.random() * Math.PI * 2`), rotationSpeed = 0.02 / size. -/
def mkMoonState (ops : TrigOps α) (spec : MoonSpec α) (rand : α) : MoonState α :=
  { orbitRadius := spec.orbitRadius,
    angle := rand * ops.piA * 2,
    rotationSpeed := 2 / 100 / spec.size,
    pos := ⟨0, 0, 0⟩,
    meshRotY := 0 }

/-- The moon-list defaulting of createPlanet: if hasMoon or an explicit list is
given, use the list, substituting the single default moon when it is empty. -/
def effectiveMoonSpecs (size : α) (hasMoon : Bool) (moons : List (MoonSpec α)) :
    List (MoonSpec α) :=
  if hasMoon || moons.length > 0 then
    if moons.length = 0 then [⟨size * (2 / 10), size * 2⟩] else moons
  else []

/-- createPlanet: group positioned at (orbitRadius, 0, 0), random initial orbit
angle, rotationSpeed = 0.02 / size (smaller planets rotate faster), one moon
state per effective moon spec (`mrng i` is that moon's random draw). -/
def createPlanet (ops : TrigOps α) (size orbitRadius : α)
    (hasMoon hasRings hasClouds isEarth : Bool) (moons : List (MoonSpec α))
    (mrng : Nat → α) (rand : α) (name : String) : PlanetState α :=
  { name := name,
    size := size,
    orbitRadius := orbitRadius,
    angle := rand * ops.piA * 2,
    rotationSpeed := 2 / 100 / size,
    pos := ⟨orbitRadius, 0, 0⟩,
    groupQuat := ⟨0, 0, 0, 1⟩,
    meshRotY := 0,
    cloudRotY := 0,
    scale := 1,
    hasRings := hasRings,
    hasClouds := hasClouds,
    isEarth := isEarth,
    sunDirection := ⟨1, 0, 0⟩,
    moons := mapWithIdx (fun i spec => mkMoonState ops spec (mrng i))
      (effectiveMoonSpecs size hasMoon moons) }

/-! ### Asteroid belt (createAsteroidBelt / updateAsteroidBelt) -/

/-- One asteroid instance.  `id` models JS object identity: every
`new THREE.Mesh` allocation yields a fresh id larger than all earlier ones. -/
structure Asteroid (α : Type*) where
  id : Nat
  pos : Vec3 α
  rot : Vec3 α
deriving DecidableEq

/-- The asteroid belt group: its rigid rotation plus the member instances. -/
structure BeltState (α : Type*) where
  rotY : α
  asteroids : List (Asteroid α)
deriving DecidableEq

/-- Orbital angle draw of asteroid `i`: `Math.random() * Math.PI * 2`. -/
def asteroidAngle (ops : TrigOps α) (rng : Nat → α) (i : Nat) : α :=
  rng (6 * i) * ops.piA * 2

/-- Radius draw of asteroid `i`: `32 + Math.random() * 8`. -/
def asteroidRadius (rng : Nat → α) (i : Nat) : α := 32 + rng (6 * i + 1) * 8

/-- Vertical offset draw of asteroid `i`: `(Math.random() - 0.5) * 3`. -/
def asteroidYOffset (rng : Nat → α) (i : Nat) : α := (rng (6 * i + 2) - 1 / 2) * 3

/-- One asteroid of createAsteroidBelt; six `Math.random()` draws per asteroid
in source order (angle, radius, vertical offset, three rotation components). -/
def mkAsteroid (ops : TrigOps α) (rng : Nat → α) (firstId i : Nat) : Asteroid α :=
  { id := firstId + i,
    pos := ⟨ops.cosf (asteroidAngle ops rng i) * asteroidRadius rng i,
            asteroidYOffset rng i,
            ops.sinf (asteroidAngle ops rng i) * asteroidRadius rng i⟩,
    rot := ⟨rng (6 * i + 3) * ops.piA, rng (6 * i + 4) * ops.piA, rng (6 * i + 5) * ops.piA⟩ }

/-- createAsteroidBelt: a fresh group (rotation 0) of `count` fresh asteroids. -/
def createAsteroidBelt (ops : TrigOps α) (count : Nat) (rng : Nat → α) (firstId : Nat) :
    BeltState α :=
  { rotY := 0, asteroids := (List.range count).map (mkAsteroid ops rng firstId) }

/-! ### Scene state and the global Live Parameter Store -/

/-- The whole mutable scene: body states, flare set, star-field and belt
rotations, plus the module-scope globals (rotationSpeed, planetSizeScale,
solarFlareInterval, asteroidCount). -/
structure SceneState (α : Type*) where
  planets : List (PlanetState α)
  flares : List (Flare α)
  starRotY : α
  belt : BeltState α
  rotationSpeed : α
  sizeScale : α
  solarFlareInterval : α
  asteroidCount : Nat
deriving DecidableEq

/-- createSolarSystem: the eight planets in descriptor order with the literal
sizes, orbit radii, flags and moon specs of the source, an initial flare batch,
the initial asteroid belt, and the default global parameters.  `prand i` is
planet i's angle draw, `mrng i` its moon-draw stream, `brng`/`frng` the belt
and flare draw streams. -/
def createSolarSystem (ops : TrigOps α) (prand : Nat → α) (mrng : Nat → Nat → α)
    (brng frng : Nat → α) : SceneState α :=
  { planets := [
      createPlanet ops (8 / 10) 10 false false false false [] (mrng 0) (prand 0) "Mercury",
      createPlanet ops (15 / 10) 15 false false false false [] (mrng 1) (prand 1) "Venus",
      createPlanet ops (16 / 10) 20 true false true true [] (mrng 2) (prand 2) "Earth",
      createPlanet ops (12 / 10) 25 false false false false
        [⟨1 / 10, 2⟩, ⟨8 / 100, 5 / 2⟩] (mrng 3) (prand 3) "Mars",
      createPlanet ops (35 / 10) 45 false false false false
        [⟨28 / 100, 5⟩, ⟨24 / 100, 6⟩, ⟨41 / 100, 7⟩, ⟨38 / 100, 8⟩] (mrng 4) (prand 4) "Jupiter",
      createPlanet ops 3 60 false true false false [⟨4 / 10, 6⟩] (mrng 5) (prand 5) "Saturn",
      createPlanet ops (25 / 10) 75 false false false false [⟨2 / 10, 4⟩] (mrng 6) (prand 6) "Uranus",
      createPlanet ops (23 / 10) 90 false false false false [⟨21 / 100, 5⟩] (mrng 7) (prand 7) "Neptune"],
    flares := createSolarFlares ops frng,
    starRotY := 0,
    belt := createAsteroidBelt ops 1000 brng 0,
    rotationSpeed := 1,
    sizeScale := 1,
    solarFlareInterval := 10,
    asteroidCount := 1000 }

/-! ### Frame update (animate) -/

/-- The planet with its day/night shader uniform reset; two planet states share
an eraseSun image exactly when they agree on every field but sunDirection. -/
def eraseSun (p : PlanetState α) : PlanetState α := { p with sunDirection := ⟨1, 0, 0⟩ }

/-- The sun-direction block of animate: look up planets[2], and if it carries
shader uniforms publish `(1,0,0).applyQuaternion(group.quaternion).normalize()`
to its sunDirection uniform. -/
def updateSunDirection (ops : TrigOps α) (s : SceneState α) : SceneState α :=
  match s.planets[2]? with
  | some p =>
    if p.isEarth then
      { s with planets := s.planets.set 2 ({ p with sunDirection := vnormalize ops (applyQuat p.groupQuat ⟨1, 0, 0⟩) }) }
    else s
  | none => s

/-- Per-moon body of the animate loop: advance the moon's angle, place its
group at (cos·r, 0, sin·r) in the parent frame, spin its mesh. -/
def stepMoon (ops : TrigOps α) (speed delta : α) (m : MoonState α) : MoonState α :=
  let angle := m.angle + m.rotationSpeed * speed * delta
  { m with
    angle := angle,
    pos := ⟨ops.cosf angle * m.orbitRadius, 0, ops.sinf angle * m.orbitRadius⟩,
    meshRotY := m.meshRotY + m.rotationSpeed * speed * delta }

/-- Per-planet body of the animate loop: advance the orbit angle by
0.005·speed·delta, recompute the group x/z from it (y untouched), spin the
mesh by rotationSpeed·speed·delta, update every moon, rotate clouds. -/
def stepPlanet (ops : TrigOps α) (speed delta : α) (p : PlanetState α) : PlanetState α :=
  let angle := p.angle + 5 / 1000 * speed * delta
  { p with
    angle := angle,
    pos := ⟨ops.cosf angle * p.orbitRadius, p.pos.y, ops.sinf angle * p.orbitRadius⟩,
    meshRotY := p.meshRotY + p.rotationSpeed * speed * delta,
    moons := p.moons.map (stepMoon ops speed delta),
    cloudRotY := if p.hasClouds then p.cloudRotY + 5 / 1000 * speed * delta else p.cloudRotY }

/-- One animate frame: flare pass, sun-direction publish, planet loop,
star-field rotation, asteroid-belt rotation.  `time` is the wall clock sample
driving the flare pulse, `delta` the clock delta, `rand`/`rng` the spawn draw
and fresh-batch draw stream. -/
def animate (ops : TrigOps α) (time delta rand : α) (rng : Nat → α) (s : SceneState α) :
    SceneState α :=
  let s1 := { s with
    flares := animateSolarFlares ops time delta s.solarFlareInterval rand rng s.flares }
  let s2 := updateSunDirection ops s1
  { s2 with
    planets := s2.planets.map (stepPlanet ops s.rotationSpeed delta),
    starRotY := s2.starRotY + 1 / 10000 * s.rotationSpeed * delta,
    belt := { s2.belt with rotY := s2.belt.rotY + 5 / 10000 * s.rotationSpeed * delta } }

/-! ### UI event handlers -/

/-- updateRotationSpeed: reassign every planet's rotationSpeed to
(0.02 / geometry radius) · (rotationSpeed / MAX_ROTATION_SPEED). -/
def updateRotationSpeed (v : α) (ps : List (PlanetState α)) : List (PlanetState α) :=
  ps.map (fun p => { p with rotationSpeed := 2 / 100 / p.size * (v / 100) })

/-- The speed-slider input handler: set the global rotationSpeed, then call
updateRotationSpeed. -/
def speedSliderEvent (v : α) (s : SceneState α) : SceneState α :=
  { s with rotationSpeed := v, planets := updateRotationSpeed v s.planets }

/-- The asteroid-count slider handler: set the global count, then
updateAsteroidBelt (remove the old belt group, createAsteroidBelt anew).
`firstId` is the allocator watermark for the fresh meshes. -/
def asteroidCountEvent (ops : TrigOps α) (v : Nat) (rng : Nat → α) (firstId : Nat)
    (s : SceneState α) : SceneState α :=
  { s with asteroidCount := v, belt := createAsteroidBelt ops v rng firstId }

/-- The planet-size slider handler: set the global scale and apply it to every
planet group. -/
def planetSizeEvent (v : α) (s : SceneState α) : SceneState α :=
  { s with sizeScale := v, planets := s.planets.map (fun p => { p with scale := v }) }

/-- alignPlanets: zero every planet's orbit angle and put its group at
x = orbitRadius, z = 0 (y untouched). -/
def alignPlanets (s : SceneState α) : SceneState α :=
  { s with planets := s.planets.map (fun p =>
      { p with angle := 0, pos := ⟨p.orbitRadius, p.pos.y, 0⟩ }) }

/-- Position-reconciliation invariant: every planet group's x/z coordinates
match cos/sin of its orbit angle times its orbit radius, and every moon group
sits exactly at its angle-determined position.  animate establishes this for
all bodies on every call; at the construction state it holds for no moon
(moons start at the origin). -/
def reconciled (ops : TrigOps α) (s : SceneState α) : Prop :=
  ∀ p ∈ s.planets,
    (p.pos.x = ops.cosf p.angle * p.orbitRadius ∧
      p.pos.z = ops.sinf p.angle * p.orbitRadius) ∧
    ∀ m ∈ p.moons,
      m.pos = ⟨ops.cosf m.angle * m.orbitRadius, 0, ops.sinf m.angle * m.orbitRadius⟩

/-! ### Concrete instantiation over ℚ for evaluation

The math backend is instantiated with computable stand-ins (the claims these
instances witness do not depend on the value of cos/sin/sqrt/π), and every
`Math.random()` draw with 0, a value the real generator can produce. -/

/-- Computable stand-in math backend over ℚ. -/
def qOps : TrigOps ℚ := ⟨fun _ => 0, fun _ => 0, fun _ => 0, 0⟩

/-- The scene immediately after construction, instantiated over ℚ with all
random draws 0. -/
def qScene : SceneState ℚ :=
  createSolarSystem qOps (fun _ => 0) (fun _ _ => 0) (fun _ => 0) (fun _ => 0)

/-- A concrete moon state over ℚ sitting at its angle-determined position
under `qOps` (whose cosine and sine are constantly 0). -/
def qRecMoon : MoonState ℚ where
  orbitRadius := 2
  angle := 0
  rotationSpeed := 1 / 10
  pos := ⟨0, 0, 0⟩
  meshRotY := 0

/-- A concrete planet state over ℚ whose x/z coordinates match its angle under
`qOps`. -/
def qRecPlanet : PlanetState ℚ where
  name := "P"
  size := 1
  orbitRadius := 10
  angle := 0
  rotationSpeed := 1 / 50
  pos := ⟨0, 7, 0⟩
  groupQuat := ⟨0, 0, 0, 1⟩
  meshRotY := 0
  cloudRotY := 0
  scale := 1
  hasRings := false
  hasClouds := false
  isEarth := false
  sunDirection := ⟨1, 0, 0⟩
  moons := [qRecMoon]

/-- A small concrete scene over ℚ satisfying the position-reconciliation
invariant under `qOps`: one planet with one moon. -/
def qRecScene : SceneState ℚ where
  planets := [qRecPlanet]
  flares := []
  starRotY := 0
  belt := { rotY := 0, asteroids := [] }
  rotationSpeed := 1
  sizeScale := 1
  solarFlareInterval := 10
  asteroidCount := 0

/-- A small concrete scene over ℚ whose belt holds one asteroid with id 0 and
a nonzero accumulated belt rotation. -/
def qBeltScene : SceneState ℚ :=
  { planets := [], flares := [], starRotY := 5,
    belt := { rotY := 3, asteroids := [{ id := 0, pos := ⟨1, 2, 3⟩, rot := ⟨0, 0, 0⟩ }] },
    rotationSpeed := 1, sizeScale := 1, solarFlareInterval := 10, asteroidCount := 1 }

/-! ### Helper lemmas -/

theorem list_set_self {β : Type*} (l : List β) (i : Nat) (h : i < l.length) :
    l.set i (l.get ⟨i, h⟩) = l := by
  induction l generalizing i with
  | nil => simp at h
  | cons b bs ih =>
    cases i with
    | zero => simp
    | succ n =>
      simp only [List.set_cons_succ, List.get_eq_getElem, List.getElem_cons_succ]
      exact congrArg (fun l => b :: l) (ih n (by simpa using h))

theorem updateSunDirection_planets_map (ops : TrigOps α) (s : SceneState α) :
    ((updateSunDirection ops s).planets).map eraseSun = s.planets.map eraseSun := by
  unfold updateSunDirection
  split
  case h_1 p h =>
    split
    case isTrue hp =>
      obtain ⟨hlen, hget⟩ := List.getElem?_eq_some.mp h
      rw [List.map_set]
      have h1 : eraseSun ({ p with
          sunDirection := vnormalize ops (applyQuat p.groupQuat ⟨1, 0, 0⟩) }) = eraseSun p := rfl
      have hlen2 : 2 < (s.planets.map eraseSun).length := by simpa using hlen
      have h2 : eraseSun p = (s.planets.map eraseSun).get ⟨2, hlen2⟩ := by
        rw [List.get_eq_getElem, List.getElem_map, hget]
      rw [h1, h2, list_set_self]
    case isFalse hp => rfl
  case h_2 h => rfl

theorem updateSunDirection_map {β : Type*} (ops : TrigOps α) (s : SceneState α)
    (g : PlanetState α → β) (hg : ∀ p, g (eraseSun p) = g p) :
    ((updateSunDirection ops s).planets).map g = s.planets.map g := by
  have h1 : ((updateSunDirection ops s).planets).map (g ∘ eraseSun) =
      s.planets.map (g ∘ eraseSun) := by
    rw [← List.map_map, ← List.map_map, updateSunDirection_planets_map]
  have h2 : (g ∘ eraseSun) = g := funext hg
  rwa [h2] at h1

theorem updateSunDirection_mem (ops : TrigOps α) (s : SceneState α) (q : PlanetState α)
    (hq : q ∈ (updateSunDirection ops s).planets) :
    ∃ p ∈ s.planets, eraseSun q = eraseSun p := by
  have h1 : eraseSun q ∈ ((updateSunDirection ops s).planets).map eraseSun :=
    List.mem_map_of_mem _ hq
  rw [updateSunDirection_planets_map] at h1
  obtain ⟨p, hp, hpe⟩ := List.mem_map.mp h1
  exact ⟨p, hp, hpe.symm⟩

theorem updateSunDirection_fields (ops : TrigOps α) (s : SceneState α) :
    (updateSunDirection ops s).flares = s.flares ∧
    (updateSunDirection ops s).starRotY = s.starRotY ∧
    (updateSunDirection ops s).belt = s.belt ∧
    (updateSunDirection ops s).rotationSpeed = s.rotationSpeed ∧
    (updateSunDirection ops s).sizeScale = s.sizeScale ∧
    (updateSunDirection ops s).solarFlareInterval = s.solarFlareInterval ∧
    (updateSunDirection ops s).asteroidCount = s.asteroidCount := by
  unfold updateSunDirection
  split
  case h_1 p h => split <;> exact ⟨rfl, rfl, rfl, rfl, rfl, rfl, rfl⟩
  case h_2 h => exact ⟨rfl, rfl, rfl, rfl, rfl, rfl, rfl⟩

theorem animate_map_angle (ops : TrigOps α) (time delta rand : α) (rng : Nat → α)
    (s : SceneState α) :
    ((animate ops time delta rand rng s).planets).map (fun p => p.angle) =
      s.planets.map (fun p => p.angle + 5 / 1000 * s.rotationSpeed * delta) := by
  simp only [animate]
  rw [List.map_map]
  have h1 : ((fun p : PlanetState α => p.angle) ∘ stepPlanet ops s.rotationSpeed delta) =
      (fun p : PlanetState α => p.angle + 5 / 1000 * s.rotationSpeed * delta) :=
    funext fun p => rfl
  rw [h1]
  exact updateSunDirection_map ops _ _ (fun p => rfl)

theorem animate_map_meshRotY (ops : TrigOps α) (time delta rand : α) (rng : Nat → α)
    (s : SceneState α) :
    ((animate ops time delta rand rng s).planets).map (fun p => p.meshRotY) =
      s.planets.map (fun p => p.meshRotY + p.rotationSpeed * s.rotationSpeed * delta) := by
  simp only [animate]
  rw [List.map_map]
  have h1 : ((fun p : PlanetState α => p.meshRotY) ∘ stepPlanet ops s.rotationSpeed delta) =
      (fun p : PlanetState α => p.meshRotY + p.rotationSpeed * s.rotationSpeed * delta) :=
    funext fun p => rfl
  rw [h1]
  exact updateSunDirection_map ops _ _ (fun p => rfl)

theorem animate_map_groupQuat (ops : TrigOps α) (time delta rand : α) (rng : Nat → α)
    (s : SceneState α) :
    ((animate ops time delta rand rng s).planets).map (fun p => p.groupQuat) =
      s.planets.map (fun p => p.groupQuat) := by
  simp only [animate]
  rw [List.map_map]
  have h1 : ((fun p : PlanetState α => p.groupQuat) ∘ stepPlanet ops s.rotationSpeed delta) =
      (fun p : PlanetState α => p.groupQuat) := funext fun p => rfl
  rw [h1]
  exact updateSunDirection_map ops _ _ (fun p => rfl)

theorem animate_getElem_map {β : Type*} (ops : TrigOps α) (time delta rand : α)
    (rng : Nat → α) (s : SceneState α) (i : Nat) (g : PlanetState α → β)
    (hg : ∀ p, g (eraseSun p) = g p) :
    ((animate ops time delta rand rng s).planets[i]?).map g =
      (s.planets[i]?).map (fun p => g (stepPlanet ops s.rotationSpeed delta p)) := by
  have hg' : ∀ p : PlanetState α,
      (fun p => g (stepPlanet ops s.rotationSpeed delta p)) (eraseSun p) =
        (fun p => g (stepPlanet ops s.rotationSpeed delta p)) p := fun p =>
    hg (stepPlanet ops s.rotationSpeed delta p)
  have hl := updateSunDirection_map ops
    ({ s with flares := animateSolarFlares ops time delta s.solarFlareInterval rand rng s.flares })
    (fun p => g (stepPlanet ops s.rotationSpeed delta p)) hg'
  have h2 := congrArg (fun l => l[i]?) hl
  simp only [List.getElem?_map] at h2
  have e1 : ((animate ops time delta rand rng s).planets[i]?).map g =
      (((updateSunDirection ops { s with flares := animateSolarFlares ops time delta s.solarFlareInterval rand rng s.flares }).planets)[i]?).map
        (fun p => g (stepPlanet ops s.rotationSpeed delta p)) := by
    rw [show (animate ops time delta rand rng s).planets =
        ((updateSunDirection ops { s with flares := animateSolarFlares ops time delta s.solarFlareInterval rand rng s.flares }).planets).map (stepPlanet ops s.rotationSpeed delta) from rfl,
      List.getElem?_map, Option.map_map]
    rfl
  rw [e1]
  exact h2

theorem usd_planets_eq (ops : TrigOps α) (s : SceneState α) (p : PlanetState α)
    (h2 : s.planets[2]? = some p) (hE : p.isEarth = true) :
    (updateSunDirection ops s).planets = s.planets.set 2
      ({ p with sunDirection := vnormalize ops (applyQuat p.groupQuat ⟨1, 0, 0⟩) }) := by
  unfold updateSunDirection
  split
  case h_1 q hq =>
    rw [h2] at hq
    injection hq with hq
    subst hq
    rw [if_pos hE]
  case h_2 hq =>
    rw [h2] at hq
    simp at hq

theorem animate_sunDirection_identity (ops : TrigOps α) (time delta rand : α)
    (rng : Nat → α) (s : SceneState α) (p : PlanetState α) (h2 : s.planets[2]? = some p)
    (hE : p.isEarth = true) (hQ : p.groupQuat = ⟨0, 0, 0, 1⟩) (hsq : ops.sqrtf 1 = 1) :
    ((animate ops time delta rand rng s).planets[2]?).map (fun q => q.sunDirection) =
      some ⟨1, 0, 0⟩ := by
  have h2' : ({ s with flares := animateSolarFlares ops time delta s.solarFlareInterval rand rng s.flares } : SceneState α).planets[2]? = some p := h2
  have hup := usd_planets_eq ops { s with flares := animateSolarFlares ops time delta s.solarFlareInterval rand rng s.flares } p h2' hE
  have hlen : 2 < s.planets.length := (List.getElem?_eq_some.mp h2).1
  have e1 : (animate ops time delta rand rng s).planets =
      ((updateSunDirection ops { s with flares := animateSolarFlares ops time delta s.solarFlareInterval rand rng s.flares }).planets).map (stepPlanet ops s.rotationSpeed delta) := rfl
  rw [e1, hup, List.getElem?_map, List.getElem?_set_self hlen]
  have hv : vnormalize ops (applyQuat p.groupQuat ⟨1, 0, 0⟩) = ⟨1, 0, 0⟩ := by
    rw [hQ]
    have ha : applyQuat (⟨0, 0, 0, 1⟩ : Quat α) (⟨1, 0, 0⟩ : Vec3 α) = ⟨1, 0, 0⟩ := by
      simp [applyQuat]
    rw [ha]
    have hl1 : vlengthSq (⟨1, 0, 0⟩ : Vec3 α) = 1 := by simp [vlengthSq]
    simp [vnormalize, hl1, hsq]
  simp [hv]
  rfl

/-! ### Claim theorems -/

/-- C1: after every animate call, every planet's orbit angle equals its
previous orbit angle plus 0.005 · rotationSpeedMultiplier · delta, the base
rate 0.005 being one shared constant independent of the body and in particular
of its orbit radius. -/
theorem animate_orbitAngle_linear (ops : TrigOps α) (time delta rand : α) (rng : Nat → α)
    (s : SceneState α) :
    ((animate ops time delta rand rng s).planets).map (fun p => p.angle) =
      s.planets.map (fun p => p.angle + 5 / 1000 * s.rotationSpeed * delta) :=
  animate_map_angle ops time delta rand rng s

/-- C2: after every animate call, every planet group sits at
(cos(angle)·orbitRadius, 0, sin(angle)·orbitRadius) in the scene frame, and
every moon group at the same expression of its own angle and radius in its
parent frame.  The hypothesis records the reachability invariant that the
planet group's y coordinate is 0 (construction places groups at
(orbitRadius, 0, 0) and no code path ever writes the y coordinate). -/
theorem animate_position_reconciliation (ops : TrigOps α) (time delta rand : α)
    (rng : Nat → α) (s : SceneState α) (hy : ∀ p ∈ s.planets, p.pos.y = 0) :
    ∀ p ∈ (animate ops time delta rand rng s).planets,
      p.pos = ⟨ops.cosf p.angle * p.orbitRadius, 0, ops.sinf p.angle * p.orbitRadius⟩ ∧
      ∀ m ∈ p.moons,
        m.pos = ⟨ops.cosf m.angle * m.orbitRadius, 0, ops.sinf m.angle * m.orbitRadius⟩ := by
  intro p hp
  simp only [animate] at hp
  rw [List.mem_map] at hp
  obtain ⟨q, hq, rfl⟩ := hp
  obtain ⟨q0, hq0, hq0e⟩ := updateSunDirection_mem ops _ q hq
  have hqy : q.pos.y = 0 := by
    have h12 : q.pos.y = q0.pos.y := congrArg (fun r => r.pos.y) hq0e
    rw [h12]; exact hy q0 hq0
  constructor
  · simp [stepPlanet, hqy]
  · intro m hm
    simp only [stepPlanet] at hm
    rw [List.mem_map] at hm
    obtain ⟨m0, hm0, rfl⟩ := hm
    rfl

/-- C2 witness: the reconciliation theorem applied to the freshly constructed
scene over ℚ with one frame of delta 1. -/
theorem animate_position_reconciliation_witness :
    (∀ p ∈ qScene.planets, p.pos.y = 0) ∧
    ∀ p ∈ (animate qOps 0 1 1 (fun _ => 0) qScene).planets,
      p.pos = ⟨qOps.cosf p.angle * p.orbitRadius, 0, qOps.sinf p.angle * p.orbitRadius⟩ ∧
      ∀ m ∈ p.moons,
        m.pos = ⟨qOps.cosf m.angle * m.orbitRadius, 0, qOps.sinf m.angle * m.orbitRadius⟩ :=
  ⟨by decide, animate_position_reconciliation qOps 0 1 1 (fun _ => 0) qScene (by decide)⟩

/-- C3 amended: the spin angle advances by the body's stored rotationSpeed
times the global multiplier times delta; that stored rate equals 0.02/size at
construction, but each speed-slider event reassigns it to
(0.02/size)·(v/MAX_ROTATION_SPEED), so after such an event the per-frame
advance is (0.02/size)·(v/100)·v·delta, not (0.02/size)·v·delta. -/
theorem animate_spin_advance_uses_stored_rate (ops : TrigOps α) (time delta rand : α)
    (rng : Nat → α) (s : SceneState α) (size orbitRadius v : α)
    (hm hr hc ie : Bool) (moons : List (MoonSpec α)) (mrng : Nat → α) (prand : α)
    (nm : String) :
    ((animate ops time delta rand rng s).planets).map (fun p => p.meshRotY) =
      s.planets.map (fun p => p.meshRotY + p.rotationSpeed * s.rotationSpeed * delta) ∧
    (createPlanet ops size orbitRadius hm hr hc ie moons mrng prand nm).rotationSpeed =
      2 / 100 / size ∧
    ((speedSliderEvent v s).planets).map (fun p => p.rotationSpeed) =
      s.planets.map (fun p => 2 / 100 / p.size * (v / 100)) ∧
    (speedSliderEvent v s).rotationSpeed = v := by
  refine ⟨animate_map_meshRotY ops time delta rand rng s, rfl, ?_, rfl⟩
  simp only [speedSliderEvent, updateRotationSpeed]
  rw [List.map_map]
  rfl

/-- C3 witness: the amended spin law applied at a concrete ℚ scene after a
speed-slider event to 2. -/
theorem animate_spin_advance_uses_stored_rate_witness :
    ((animate qOps 0 1 1 (fun _ => 0) (speedSliderEvent 2 qScene)).planets).map
        (fun p => p.meshRotY) =
      (speedSliderEvent 2 qScene).planets.map
        (fun p => p.meshRotY + p.rotationSpeed * (speedSliderEvent 2 qScene).rotationSpeed * 1) :=
  (animate_spin_advance_uses_stored_rate qOps 0 1 1 (fun _ => 0) (speedSliderEvent 2 qScene)
    1 1 2 false false false false [] (fun _ => 0) 0 "").1

/-- C3 counterexample: with the real math backend, after a speed-slider event
sets the multiplier to 2, the next frame (delta 1) does not advance spin
angles by spinRateBase · multiplier · delta with spinRateBase = 0.02/size the
construction-time constant: the event has rescaled every stored per-body rate
by 2/100. -/
theorem spin_claim_fails_after_speed_event :
    ((animate ⟨Real.cos, Real.sin, Real.sqrt, Real.pi⟩ 0 1 1 (fun _ => 0)
        (speedSliderEvent 2 (createSolarSystem ⟨Real.cos, Real.sin, Real.sqrt, Real.pi⟩
          (fun _ => 0) (fun _ _ => 0) (fun _ => 0) (fun _ => 0)))).planets).map
        (fun p => p.meshRotY) ≠
      ((speedSliderEvent 2 (createSolarSystem ⟨Real.cos, Real.sin, Real.sqrt, Real.pi⟩
          (fun _ => 0) (fun _ _ => 0) (fun _ => 0) (fun _ => 0))).planets).map
        (fun p => p.meshRotY + 2 / 100 / p.size * 2 * 1) := by
  intro h
  rw [animate_map_meshRotY] at h
  have h0 := congrArg (fun l => l[0]?) h
  simp only [speedSliderEvent, updateRotationSpeed, createSolarSystem, createPlanet,
    List.map_map, List.map_cons, List.getElem?_cons_zero, Function.comp] at h0
  rw [Option.some_inj] at h0
  norm_num at h0

/-- C4 amended: each frame, the day/night body's published sun direction is
the fixed reference vector (1,0,0) rotated by the body's group quaternion and
re-normalized; but no code path ever writes the group quaternion (orbital
motion is applied to the group's position), so from the identity quaternion it
stays the identity and the published direction is constantly (1,0,0) — the
terminator does not rotate as the body orbits. -/
theorem sunDirection_published_constant (time delta rand : ℝ) (rng : Nat → ℝ)
    (s : SceneState ℝ) (p : PlanetState ℝ) (h2 : s.planets[2]? = some p)
    (hE : p.isEarth = true) (hQ : p.groupQuat = ⟨0, 0, 0, 1⟩) :
    ((animate ⟨Real.cos, Real.sin, Real.sqrt, Real.pi⟩ time delta rand rng s).planets[2]?).map
        (fun q => q.sunDirection) = some ⟨1, 0, 0⟩ ∧
    ((animate ⟨Real.cos, Real.sin, Real.sqrt, Real.pi⟩ time delta rand rng s).planets).map
        (fun q => q.groupQuat) = s.planets.map (fun q => q.groupQuat) :=
  ⟨animate_sunDirection_identity ⟨Real.cos, Real.sin, Real.sqrt, Real.pi⟩ time delta rand rng
      s p h2 hE hQ Real.sqrt_one,
    animate_map_groupQuat ⟨Real.cos, Real.sin, Real.sqrt, Real.pi⟩ time delta rand rng s⟩

/-- C4 witness: the amended sun-direction law applied to the freshly
constructed scene (Earth is planets[2], its group quaternion the identity). -/
theorem sunDirection_published_constant_witness :
    ((createSolarSystem ⟨Real.cos, Real.sin, Real.sqrt, Real.pi⟩ (fun _ => 0) (fun _ _ => 0)
        (fun _ => 0) (fun _ => 0)).planets[2]? =
      some (createPlanet ⟨Real.cos, Real.sin, Real.sqrt, Real.pi⟩ (16 / 10) 20 true false true
        true [] (fun _ => 0) 0 "Earth")) ∧
    (((animate ⟨Real.cos, Real.sin, Real.sqrt, Real.pi⟩ 0 1 1 (fun _ => 0)
        (createSolarSystem ⟨Real.cos, Real.sin, Real.sqrt, Real.pi⟩ (fun _ => 0) (fun _ _ => 0)
          (fun _ => 0) (fun _ => 0))).planets[2]?).map
        (fun q => q.sunDirection) = some ⟨1, 0, 0⟩ ∧
      ((animate ⟨Real.cos, Real.sin, Real.sqrt, Real.pi⟩ 0 1 1 (fun _ => 0)
        (createSolarSystem ⟨Real.cos, Real.sin, Real.sqrt, Real.pi⟩ (fun _ => 0) (fun _ _ => 0)
          (fun _ => 0) (fun _ => 0))).planets).map (fun q => q.groupQuat) =
        (createSolarSystem ⟨Real.cos, Real.sin, Real.sqrt, Real.pi⟩ (fun _ => 0) (fun _ _ => 0)
          (fun _ => 0) (fun _ => 0)).planets.map (fun q => q.groupQuat)) :=
  ⟨rfl, sunDirection_published_constant 0 1 1 (fun _ => 0)
    (createSolarSystem ⟨Real.cos, Real.sin, Real.sqrt, Real.pi⟩ (fun _ => 0) (fun _ _ => 0)
      (fun _ => 0) (fun _ => 0))
    (createPlanet ⟨Real.cos, Real.sin, Real.sqrt, Real.pi⟩ (16 / 10) 20 true false true true []
      (fun _ => 0) 0 "Earth") rfl rfl rfl⟩

/-- C4 counterexample: on the freshly constructed scene one frame of delta 1
advances Earth's orbit angle from 0 to 0.005, yet the published sun direction
is (1,0,0) both before and after the frame — the direction does not change as
the body orbits. -/
theorem sunDirection_claim_fails_to_rotate :
    ((animate ⟨Real.cos, Real.sin, Real.sqrt, Real.pi⟩ 0 1 1 (fun _ => 0)
        (createSolarSystem ⟨Real.cos, Real.sin, Real.sqrt, Real.pi⟩ (fun _ => 0) (fun _ _ => 0)
          (fun _ => 0) (fun _ => 0))).planets[2]?).map (fun q => q.sunDirection) =
      some ⟨1, 0, 0⟩ ∧
    ((createSolarSystem ⟨Real.cos, Real.sin, Real.sqrt, Real.pi⟩ (fun _ => 0) (fun _ _ => 0)
        (fun _ => 0) (fun _ => 0)).planets[2]?).map (fun q => q.sunDirection) =
      some ⟨1, 0, 0⟩ ∧
    ((animate ⟨Real.cos, Real.sin, Real.sqrt, Real.pi⟩ 0 1 1 (fun _ => 0)
        (createSolarSystem ⟨Real.cos, Real.sin, Real.sqrt, Real.pi⟩ (fun _ => 0) (fun _ _ => 0)
          (fun _ => 0) (fun _ => 0))).planets[2]?).map (fun q => q.angle) =
      some (5 / 1000) ∧
    ((createSolarSystem ⟨Real.cos, Real.sin, Real.sqrt, Real.pi⟩ (fun _ => 0) (fun _ _ => 0)
        (fun _ => 0) (fun _ => 0)).planets[2]?).map (fun q => q.angle) = some 0 ∧
    (5 / 1000 : ℝ) ≠ 0 := by
  refine ⟨?_, ?_, ?_, ?_, by norm_num⟩
  · exact animate_sunDirection_identity ⟨Real.cos, Real.sin, Real.sqrt, Real.pi⟩ 0 1 1
      (fun _ => 0)
      (createSolarSystem ⟨Real.cos, Real.sin, Real.sqrt, Real.pi⟩ (fun _ => 0) (fun _ _ => 0)
        (fun _ => 0) (fun _ => 0))
      (createPlanet ⟨Real.cos, Real.sin, Real.sqrt, Real.pi⟩ (16 / 10) 20 true false true true
        [] (fun _ => 0) 0 "Earth") rfl rfl rfl Real.sqrt_one
  · norm_num [createSolarSystem, createPlanet]
  · rw [animate_getElem_map ⟨Real.cos, Real.sin, Real.sqrt, Real.pi⟩ 0 1 1 (fun _ => 0)
      (createSolarSystem ⟨Real.cos, Real.sin, Real.sqrt, Real.pi⟩ (fun _ => 0) (fun _ _ => 0)
        (fun _ => 0) (fun _ => 0)) 2 (fun q => q.angle) (fun p => rfl)]
    norm_num [createSolarSystem, createPlanet, stepPlanet]
  · norm_num [createSolarSystem, createPlanet]

/-- C5: a tick in which two adjacent flares both reach their maxLifespan
removes only the first.  Both flares here have maxLifespan 5 and lifespan 4.5;
with delta 1 both ages reach 5.5 ≥ 5, the first is removed, and the splice
performed by the removal makes the forEach skip the second, which survives the
tick (not even aged) and is still in the active set afterwards. -/
theorem flare_retirement_skips_next_flare :
    animateSolarFlares qOps 0 1 10 1 (fun _ => 0)
        [{ mkFlare qOps (fun _ => 0) 0 with lifespan := 9 / 2 },
          { mkFlare qOps (fun _ => 0) 1 with lifespan := 9 / 2 }] =
      [{ mkFlare qOps (fun _ => 0) 1 with lifespan := 9 / 2 }] ∧
    (mkFlare qOps (fun _ => 0) 1).maxLifespan ≤ 9 / 2 + 1 := by
  constructor
  · norm_num [animateSolarFlares, flareLoop, flareLoopFuel, stepFlare, mkFlare, qOps,
      List.eraseIdx]
  · norm_num [mkFlare, qOps]

/-- C6 amended: a zero-delta frame leaves all orbit angles and spin angles
unchanged, and leaves positions unchanged in any state satisfying the
position-reconciliation invariant (as every state that has undergone at least
one frame does); at the construction state the positions are instead snapped
to their angle-determined values. -/
theorem animate_zero_delta_reconciled (ops : TrigOps α) (time rand : α) (rng : Nat → α)
    (s : SceneState α) (hrec : reconciled ops s) :
    ((animate ops time 0 rand rng s).planets).map
        (fun p => (p.angle, p.meshRotY, p.pos, p.moons)) =
      s.planets.map (fun p => (p.angle, p.meshRotY, p.pos, p.moons)) := by
  have hstep : ∀ q ∈ (updateSunDirection ops { s with flares := animateSolarFlares ops time 0 s.solarFlareInterval rand rng s.flares }).planets,
      ((fun p : PlanetState α => (p.angle, p.meshRotY, p.pos, p.moons)) ∘
        stepPlanet ops s.rotationSpeed 0) q =
      (fun p : PlanetState α => (p.angle, p.meshRotY, p.pos, p.moons)) q := by
    intro q hq
    obtain ⟨p0, hp0, hpe⟩ := updateSunDirection_mem ops _ q hq
    have hang : q.angle = p0.angle := congrArg (fun r => r.angle) hpe
    have hpos : q.pos = p0.pos := congrArg (fun r => r.pos) hpe
    have hmoons : q.moons = p0.moons := congrArg (fun r => r.moons) hpe
    have hrad : q.orbitRadius = p0.orbitRadius := congrArg (fun r => r.orbitRadius) hpe
    obtain ⟨⟨hx, hz⟩, hm⟩ := hrec p0 hp0
    have ha0 : q.angle + 5 / 1000 * s.rotationSpeed * 0 = q.angle := by ring
    simp only [Function.comp_apply, stepPlanet, Prod.mk.injEq]
    refine ⟨ha0, by ring, ?_, ?_⟩
    · rw [ha0, hang, hrad, hpos]
      exact Vec3.ext hx.symm rfl hz.symm
    · rw [hmoons]
      have hmm : ∀ m ∈ p0.moons, stepMoon ops s.rotationSpeed 0 m = m := by
        intro m hmem
        have hma : m.angle + m.rotationSpeed * s.rotationSpeed * 0 = m.angle := by ring
        have hmr : m.meshRotY + m.rotationSpeed * s.rotationSpeed * 0 = m.meshRotY := by
          ring
        simp only [stepMoon, hma, hmr]
        rw [← hm m hmem]
      have hmap : p0.moons.map (stepMoon ops s.rotationSpeed 0) = p0.moons.map id :=
        List.map_congr_left (fun m hmem => hmm m hmem)
      rw [hmap, List.map_id]
  have e1 : (animate ops time 0 rand rng s).planets =
      ((updateSunDirection ops { s with flares := animateSolarFlares ops time 0 s.solarFlareInterval rand rng s.flares }).planets).map (stepPlanet ops s.rotationSpeed 0) := rfl
  rw [e1, List.map_map, List.map_congr_left hstep]
  exact updateSunDirection_map ops _ _ (fun p => rfl)

/-- C6 witness: the zero-delta law applied to a concrete reconciled state. -/
theorem animate_zero_delta_reconciled_witness :
    reconciled qOps qRecScene ∧
    ((animate qOps 0 0 1 (fun _ => 0) qRecScene).planets).map
        (fun p => (p.angle, p.meshRotY, p.pos, p.moons)) =
      qRecScene.planets.map (fun p => (p.angle, p.meshRotY, p.pos, p.moons)) :=
  ⟨by norm_num [reconciled, qRecScene, qRecPlanet, qRecMoon, qOps],
    animate_zero_delta_reconciled qOps 0 1 (fun _ => 0) qRecScene
      (by norm_num [reconciled, qRecScene, qRecPlanet, qRecMoon, qOps])⟩

/-- C6 counterexample: at the state immediately after construction every moon
group sits at the origin, and the very first frame — even with delta 0 — moves
it onto its orbit: Mars' two moons move from (0,0,0) to (2,0,0) and
(2.5,0,0). -/
theorem zero_delta_moves_moons_at_construction :
    ((animate ⟨Real.cos, Real.sin, Real.sqrt, Real.pi⟩ 0 0 1 (fun _ => 0)
        (createSolarSystem ⟨Real.cos, Real.sin, Real.sqrt, Real.pi⟩ (fun _ => 0) (fun _ _ => 0)
          (fun _ => 0) (fun _ => 0))).planets[3]?).map
        (fun p => p.moons.map (fun m => m.pos)) =
      some [⟨2, 0, 0⟩, ⟨5 / 2, 0, 0⟩] ∧
    ((createSolarSystem ⟨Real.cos, Real.sin, Real.sqrt, Real.pi⟩ (fun _ => 0) (fun _ _ => 0)
        (fun _ => 0) (fun _ => 0)).planets[3]?).map
        (fun p => p.moons.map (fun m => m.pos)) =
      some [⟨0, 0, 0⟩, ⟨0, 0, 0⟩] ∧
    ([⟨2, 0, 0⟩, ⟨5 / 2, 0, 0⟩] : List (Vec3 ℝ)) ≠ [⟨0, 0, 0⟩, ⟨0, 0, 0⟩] := by
  have hg6 : ∀ p : PlanetState ℝ,
      ((eraseSun p).moons.map (fun m => m.pos)) = p.moons.map (fun m => m.pos) :=
    fun p => rfl
  refine ⟨?_, ?_, ?_⟩
  · rw [animate_getElem_map ⟨Real.cos, Real.sin, Real.sqrt, Real.pi⟩ 0 0 1 (fun _ => 0)
      (createSolarSystem ⟨Real.cos, Real.sin, Real.sqrt, Real.pi⟩ (fun _ => 0) (fun _ _ => 0)
        (fun _ => 0) (fun _ => 0)) 3 (fun p => p.moons.map (fun m => m.pos)) hg6]
    norm_num [createSolarSystem, createPlanet, stepPlanet, stepMoon, mkMoonState,
      effectiveMoonSpecs, mapWithIdx, Real.cos_zero, Real.sin_zero, Vec3.mk.injEq]
  · norm_num [createSolarSystem, createPlanet, mkMoonState, effectiveMoonSpecs, mapWithIdx,
      Vec3.mk.injEq]
  · intro h
    simp only [List.cons.injEq, Vec3.mk.injEq] at h
    norm_num at h

/-- C7: each animateSolarFlares tick performs exactly one spawn trial,
succeeding exactly when the random draw is below deltaSeconds divided by the
spawn interval, and on success appends exactly one flare — the first of a
freshly generated batch of 3 — to the processed active set. -/
theorem flare_spawn_bernoulli (ops : TrigOps α) (time delta interval rand : α)
    (rng : Nat → α) (flares : List (Flare α)) :
    animateSolarFlares ops time delta interval rand rng flares =
      flareLoop ops time delta flares ++
        (if rand < delta / interval then [mkFlare ops rng 0] else []) ∧
    (createSolarFlares ops rng).length = 3 := by
  constructor
  · unfold animateSolarFlares
    have hc : (1 / interval * delta) = delta / interval := by ring
    rw [hc]
    by_cases h : rand < delta / interval
    · rw [if_pos h, if_pos h]; rfl
    · rw [if_neg h, if_neg h, List.append_nil]
  · rfl

/-- C8: rebuilding the asteroid field with count v fully regenerates it: the
new field has exactly v instances, none of them an instance of the previous
field (fresh allocations carry ids above the old watermark), each freshly
sampled from the new draw stream with angle in [0, 2π), radius in [32, 40),
vertical offset in [-1.5, 1.5); and frame updates never touch the instances
(only the field's rigid rotation), so the samples are immutable. -/
theorem asteroid_rebuild_full_regeneration (ops : TrigOps α) (v : Nat) (rng : Nat → α)
    (firstId : Nat) (s : SceneState α)
    (hrng : ∀ n, 0 ≤ rng n ∧ rng n < 1) (hpi : 0 < ops.piA)
    (hid : ∀ a ∈ s.belt.asteroids, a.id < firstId) :
    ((asteroidCountEvent ops v rng firstId s).belt.asteroids).length = v ∧
    (∀ a ∈ (asteroidCountEvent ops v rng firstId s).belt.asteroids,
      ∀ b ∈ s.belt.asteroids, a ≠ b) ∧
    (∀ j, j < v → ((asteroidCountEvent ops v rng firstId s).belt.asteroids)[j]? =
      some (mkAsteroid ops rng firstId j)) ∧
    (∀ j : Nat, 0 ≤ asteroidAngle ops rng j ∧ asteroidAngle ops rng j < ops.piA * 2 ∧
      32 ≤ asteroidRadius rng j ∧ asteroidRadius rng j < 40 ∧
      -(3 / 2) ≤ asteroidYOffset rng j ∧ asteroidYOffset rng j < 3 / 2) ∧
    (∀ (time delta rand : α) (rng2 : Nat → α) (s2 : SceneState α),
      (animate ops time delta rand rng2 s2).belt.asteroids = s2.belt.asteroids) := by
  refine ⟨?_, ?_, ?_, ?_, ?_⟩
  · simp [asteroidCountEvent, createAsteroidBelt]
  · intro a ha b hb hab
    simp only [asteroidCountEvent, createAsteroidBelt, List.mem_map, List.mem_range] at ha
    obtain ⟨j, hj, rfl⟩ := ha
    have h1 : (mkAsteroid ops rng firstId j).id = b.id := congrArg (fun r => r.id) hab
    have h2 : (mkAsteroid ops rng firstId j).id = firstId + j := rfl
    have h3 : b.id < firstId := hid b hb
    omega
  · intro j hj
    simp only [asteroidCountEvent, createAsteroidBelt, List.getElem?_map,
      List.getElem?_range hj, Option.map_some']
  · intro j
    obtain ⟨h0, h1⟩ := hrng (6 * j)
    obtain ⟨h2, h3⟩ := hrng (6 * j + 1)
    obtain ⟨h4, h5⟩ := hrng (6 * j + 2)
    refine ⟨?_, ?_, ?_, ?_, ?_, ?_⟩
    · exact mul_nonneg (mul_nonneg h0 (le_of_lt hpi)) (by norm_num)
    · calc rng (6 * j) * ops.piA * 2 < 1 * ops.piA * 2 := by
            apply mul_lt_mul_of_pos_right
            · exact mul_lt_mul_of_pos_right h1 hpi
            · norm_num
        _ = ops.piA * 2 := by ring
    · unfold asteroidRadius; nlinarith
    · unfold asteroidRadius; nlinarith
    · unfold asteroidYOffset; nlinarith
    · unfold asteroidYOffset; nlinarith
  · intro time delta rand rng2 s2
    have hb := (updateSunDirection_fields ops { s2 with flares := animateSolarFlares ops time delta s2.solarFlareInterval rand rng2 s2.flares }).2.2.1
    exact congrArg (fun b => b.asteroids) hb

/-- C8 witness: the rebuild contract applied at a concrete ℚ scene holding one
old asteroid (id 0), rebuilding with count 2 and fresh ids from 5. -/
theorem asteroid_rebuild_full_regeneration_witness :
    (∀ a ∈ qBeltScene.belt.asteroids, a.id < 5) ∧
    ((asteroidCountEvent ⟨fun _ => 0, fun _ => 0, fun _ => 0, 1⟩ 2 (fun _ => 1 / 2) 5
        qBeltScene).belt.asteroids).length = 2 ∧
    (∀ a ∈ (asteroidCountEvent ⟨fun _ => 0, fun _ => 0, fun _ => 0, 1⟩ 2 (fun _ => 1 / 2) 5
        qBeltScene).belt.asteroids, ∀ b ∈ qBeltScene.belt.asteroids, a ≠ b) := by
  have h := asteroid_rebuild_full_regeneration (⟨fun _ => 0, fun _ => 0, fun _ => 0, 1⟩ :
      TrigOps ℚ) 2 (fun _ => 1 / 2) 5 qBeltScene
    (fun n => ⟨by norm_num, by norm_num⟩) (by norm_num)
    (by norm_num [qBeltScene])
  exact ⟨by norm_num [qBeltScene], h.1, h.2.1⟩

/-- C9: rebuilding the asteroid field (as the asteroid-count change handler
does) resets the field group's accumulated rigid spin to zero — the new field
starts at rotation 0 instead of inheriting the previous field's rotation. -/
theorem asteroid_rebuild_resets_spin (ops : TrigOps α) (v : Nat) (rng : Nat → α)
    (firstId : Nat) (s : SceneState α) :
    (asteroidCountEvent ops v rng firstId s).belt.rotY = 0 ∧
    (createAsteroidBelt ops v rng firstId).rotY = 0 :=
  ⟨rfl, rfl⟩

/-- C10: alignPlanets zeroes every planet's orbit angle and puts its group at
(orbitRadius, 0, 0), and changes nothing else: moons (hence every satellite's
angle and position), spin angles, every other per-planet field, and all global
parameters are untouched.  The hypothesis is the reachability invariant that
group y coordinates are 0. -/
theorem alignPlanets_effect (s : SceneState α) (hy : ∀ p ∈ s.planets, p.pos.y = 0) :
    (∀ p ∈ (alignPlanets s).planets, p.angle = 0 ∧ p.pos = ⟨p.orbitRadius, 0, 0⟩) ∧
    ((alignPlanets s).planets).map (fun p => p.moons) = s.planets.map (fun p => p.moons) ∧
    ((alignPlanets s).planets).map (fun p => p.meshRotY) =
      s.planets.map (fun p => p.meshRotY) ∧
    ((alignPlanets s).planets).map
        (fun p => (p.name, p.size, p.orbitRadius, p.rotationSpeed, p.groupQuat, p.cloudRotY,
          p.scale, p.hasRings, p.hasClouds, p.isEarth, p.sunDirection)) =
      s.planets.map
        (fun p => (p.name, p.size, p.orbitRadius, p.rotationSpeed, p.groupQuat, p.cloudRotY,
          p.scale, p.hasRings, p.hasClouds, p.isEarth, p.sunDirection)) ∧
    (alignPlanets s).flares = s.flares ∧
    (alignPlanets s).starRotY = s.starRotY ∧
    (alignPlanets s).belt = s.belt ∧
    (alignPlanets s).rotationSpeed = s.rotationSpeed ∧
    (alignPlanets s).sizeScale = s.sizeScale ∧
    (alignPlanets s).solarFlareInterval = s.solarFlareInterval ∧
    (alignPlanets s).asteroidCount = s.asteroidCount := by
  refine ⟨?_, ?_, ?_, ?_, rfl, rfl, rfl, rfl, rfl, rfl, rfl⟩
  · intro p hp
    simp only [alignPlanets, List.mem_map] at hp
    obtain ⟨p0, hp0, rfl⟩ := hp
    refine ⟨rfl, ?_⟩
    have hy0 : p0.pos.y = 0 := hy p0 hp0
    exact Vec3.ext rfl hy0 rfl
  · simp only [alignPlanets]; rw [List.map_map]; rfl
  · simp only [alignPlanets]; rw [List.map_map]; rfl
  · simp only [alignPlanets]; rw [List.map_map]; rfl

/-- C10 witness: the alignPlanets contract applied to the freshly constructed
ℚ scene. -/
theorem alignPlanets_effect_witness :
    (∀ p ∈ qScene.planets, p.pos.y = 0) ∧
    (∀ p ∈ (alignPlanets qScene).planets, p.angle = 0 ∧ p.pos = ⟨p.orbitRadius, 0, 0⟩) ∧
    ((alignPlanets qScene).planets).map (fun p => p.moons) =
      qScene.planets.map (fun p => p.moons) ∧
    (alignPlanets qScene).rotationSpeed = qScene.rotationSpeed := by
  have h := alignPlanets_effect qScene (by decide)
  exact ⟨by decide, h.1, h.2.1, h.2.2.2.2.2.2.2.1⟩

end SolarSim
